import Mathlib

/-!
Shallow embedding of the Temple Heritage Hub application
(src/temple_history_app.py) and verification of its specification.

The source is a Streamlit app over a SQLite database.  We embed the
location-resolution state machine (location_input_component, lines 125-237),
the IP geolocation helper (get_location_from_ip, lines 108-123), the
validation and persistence path (upload_content_interface, lines 239-342, and
save_contribution, lines 344-418), and the read-side browsing view
(browse_contributions, lines 420-518).

Python floats are modelled as rationals, Python None as Option, SQLite NULL
as Option, and Python truthiness of an optional number (None and 0.0 are
falsy) as pyTruthy.  The SQLite layer is modelled by an explicit committed
database value plus a fault oracle saying where, if anywhere, an exception
is raised during the write transaction; closing the connection without a
commit rolls the pending inserts back, exactly as sqlite3 does.
-/

/-- Python `pat in hay` test on character lists: does `pat` occur at the head? -/
def leadingMatch : List Char → List Char → Bool
  | _, [] => true
  | [], _ :: _ => false
  | c :: cs, p :: ps => c == p && leadingMatch cs ps

/-- Python `pat in hay` test on character lists: does `pat` occur anywhere? -/
def containsCh : List Char → List Char → Bool
  | [], pat => pat.isEmpty
  | c :: cs, pat => leadingMatch (c :: cs) pat || containsCh cs pat

/-- Python substring operator `pat in hay` on strings. -/
def strContains (hay pat : String) : Bool :=
  containsCh hay.toList pat.toList

/-- Python `str.strip()`: remove leading and trailing whitespace. -/
def pyStrip (s : String) : String :=
  String.mk (((s.toList.dropWhile Char.isWhitespace).reverse.dropWhile
      Char.isWhitespace).reverse)

/-- Python `s or dflt` for strings: the empty string is falsy. -/
def pyOr (s dflt : String) : String :=
  if s = "" then dflt else s

/-- Python truthiness of an optional number: None and 0.0 are falsy. -/
def pyTruthy : Option ℚ → Bool
  | none => false
  | some x => decide (x ≠ 0)

/-- Python `v != 0` for an optional number: `None != 0` is True. -/
def pyNeZero : Option ℚ → Bool
  | none => true
  | some x => decide (x ≠ 0)

/-- Acquisition method tag stored in the location session state. -/
inductive Method where
  | GPS
  | Manual
  | IP
  deriving DecidableEq, Repr

/-- The `st.session_state.location_data` dict (lines 130-136). -/
structure LocationData where
  latitude : Option ℚ
  longitude : Option ℚ
  address : String
  method : Option Method
  deriving DecidableEq, Repr

/-- Initial location state (lines 131-136): both coordinates None. -/
def initLocation : LocationData :=
  { latitude := none, longitude := none, address := "", method := none }

/-- A reading returned by the streamlit_geolocation capability: a dict whose
values may each be None. -/
structure GpsReading where
  latitude : Option ℚ
  longitude : Option ℚ
  accuracy : Option ℚ
  deriving DecidableEq, Repr

/-- GPS branch of location_input_component (lines 148-163): the state is
updated only when the reading exists and its latitude is truthy; the
longitude is copied without its own check. -/
def gpsUpdate (st : LocationData) : Option GpsReading → LocationData
  | some r =>
    if pyTruthy r.latitude then
      { st with latitude := r.latitude, longitude := r.longitude,
                method := some Method.GPS }
    else st
  | none => st

/-- Manual-entry branch (lines 167-194): the Set Location button stores both
entered values unconditionally (the widgets already bound their ranges). -/
def manualUpdate (st : LocationData) (lat lon : ℚ) : LocationData :=
  { st with latitude := some lat, longitude := some lon,
            method := some Method.Manual }

/-- Fields read out of a parsed ipapi.co JSON body via `data.get(...)`
(lines 113-120); each may be absent. -/
structure IPJson where
  latitude : Option ℚ
  longitude : Option ℚ
  city : Option String
  region : Option String
  country_name : Option String
  deriving DecidableEq, Repr

/-- Body of an HTTP response: either `.json()` raises, or it parses. -/
inductive JsonBody where
  | invalid
  | valid (data : IPJson)
  deriving DecidableEq, Repr

/-- Outcome of the `requests.get` call: a network error / timeout raised in
flight, or a response carrying a status code and a body. -/
inductive IPOutcome where
  | netError
  | response (status : Nat) (body : JsonBody)
  deriving DecidableEq, Repr

/-- The dict returned by get_location_from_ip on the 200 path. -/
structure IPLocation where
  latitude : Option ℚ
  longitude : Option ℚ
  city : Option String
  region : Option String
  country : Option String
  deriving DecidableEq, Repr

/-- get_location_from_ip (lines 108-123): any raised exception is swallowed
and None is returned; a non-200 status also returns None; a parsed body is
passed through field-by-field with no shape validation. -/
def get_location_from_ip : IPOutcome → Option IPLocation
  | IPOutcome.netError => none
  | IPOutcome.response status body =>
    if status = 200 then
      match body with
      | JsonBody.invalid => none
      | JsonBody.valid d =>
        some { latitude := d.latitude, longitude := d.longitude,
               city := d.city, region := d.region, country := d.country_name }
    else none

/-- Python string interpolation of a possibly-None value. -/
def pyStrOfOpt : Option String → String
  | none => "None"
  | some s => s

/-- IP branch of location_input_component (lines 196-213): the state is
updated only when the lookup result exists and its latitude is truthy; the
longitude and address are copied without their own checks. -/
def ipUpdate (st : LocationData) (outcome : IPOutcome) : LocationData :=
  match get_location_from_ip outcome with
  | some ipl =>
    if pyTruthy ipl.latitude then
      { st with latitude := ipl.latitude, longitude := ipl.longitude,
                address := pyStrOfOpt ipl.city ++ ", " ++ pyStrOfOpt ipl.region
                  ++ ", " ++ pyStrOfOpt ipl.country,
                method := some Method.IP }
    else st
  | none => st

/-- Inner display check of line 222: is either coordinate non-zero
(with Python semantics `None != 0` being True)? -/
def previewNonZeroCheck (st : LocationData) : Bool :=
  pyNeZero st.latitude || pyNeZero st.longitude

/-- Whether the current-location map preview is rendered (lines 215-227):
the outer guard needs a truthy latitude, the inner guard needs a non-zero
coordinate. -/
def mapPreviewShown (st : LocationData) : Bool :=
  pyTruthy st.latitude && previewNonZeroCheck st

/-- One user interaction with the location component, or the
post-submission reset of lines 337-342. -/
inductive LocEvent where
  | gps (reading : Option GpsReading)
  | manual (lat lon : ℚ)
  | ip (outcome : IPOutcome)
  | setAddress (a : String)
  | reset
  deriving DecidableEq, Repr

/-- Transition of the location session state under one event. -/
def locStep (st : LocationData) : LocEvent → LocationData
  | LocEvent.gps r => gpsUpdate st r
  | LocEvent.manual lat lon => manualUpdate st lat lon
  | LocEvent.ip outcome => ipUpdate st outcome
  | LocEvent.setAddress a => { st with address := a }
  | LocEvent.reset => initLocation

/-- The location state reached from the initial state by a list of events. -/
def locRun (evs : List LocEvent) : LocationData :=
  evs.foldl locStep initLocation

/-- Latitude and longitude are both set or both absent. -/
def coordsPaired (st : LocationData) : Bool :=
  st.latitude.isSome == st.longitude.isSome

/-- An acquisition event whose payload never supplies a truthy latitude
without also supplying a longitude.  The real streamlit_geolocation widget
and a well-formed ipapi.co body always satisfy this. -/
def eventPaired : LocEvent → Bool
  | LocEvent.gps (some r) => !pyTruthy r.latitude || r.longitude.isSome
  | LocEvent.ip (IPOutcome.response _ (JsonBody.valid d)) =>
      !pyTruthy d.latitude || d.longitude.isSome
  | _ => true

/-- A file handed over by st.file_uploader: declared name plus raw bytes. -/
structure UploadedFile where
  name : String
  data : List Nat
  deriving DecidableEq, Repr

/-- A row of the temples table as written by save_contribution
(lines 354-365); columns not supplied by the INSERT are omitted. -/
structure TempleRow where
  name : String
  location_address : String
  latitude : Option ℚ
  longitude : Option ℚ
  description : String
  contributor_name : String
  deriving DecidableEq, Repr

/-- A row of the historical_events table as written by save_contribution
(lines 370-380); the schema and the INSERT have no address column. -/
structure EventRow where
  event_title : String
  event_description : String
  latitude : Option ℚ
  longitude : Option ℚ
  contributor_name : String
  deriving DecidableEq, Repr

/-- A row of the content_contributions table as written by save_contribution
(lines 390-406). -/
structure ContentRow where
  title : String
  content_type : String
  description : String
  latitude : Option ℚ
  longitude : Option ℚ
  location_address : String
  contributor_name : String
  file_data : List Nat
  filename : String
  file_size : Nat
  deriving DecidableEq, Repr

/-- A pending INSERT against one of the three tables. -/
inductive Row where
  | temple (r : TempleRow)
  | event (r : EventRow)
  | content (r : ContentRow)
  deriving DecidableEq, Repr

/-- Committed contents of the three tables save_contribution writes to. -/
structure DB where
  temples : List TempleRow
  historical_events : List EventRow
  content_contributions : List ContentRow
  deriving DecidableEq, Repr

/-- A freshly initialized database. -/
def emptyDB : DB :=
  { temples := [], historical_events := [], content_contributions := [] }

/-- Effect of committing one INSERT. -/
def insertRow (db : DB) : Row → DB
  | Row.temple r => { db with temples := db.temples ++ [r] }
  | Row.event r => { db with historical_events := db.historical_events ++ [r] }
  | Row.content r =>
      { db with content_contributions := db.content_contributions ++ [r] }

/-- The temples row built at lines 354-365. -/
def templeRowOf (title description : String) (location_data : LocationData)
    (contributor_name : String) : TempleRow :=
  { name := title, location_address := location_data.address,
    latitude := location_data.latitude, longitude := location_data.longitude,
    description := description,
    contributor_name := pyOr contributor_name "Anonymous" }

/-- The historical_events row built at lines 370-380. -/
def eventRowOf (title description : String) (location_data : LocationData)
    (contributor_name : String) : EventRow :=
  { event_title := title, event_description := description,
    latitude := location_data.latitude, longitude := location_data.longitude,
    contributor_name := pyOr contributor_name "Anonymous" }

/-- The content_contributions row built for one file at lines 386-406. -/
def contentRowOf (contribution_type title description : String)
    (location_data : LocationData) (contributor_name : String)
    (f : UploadedFile) : ContentRow :=
  { title := title, content_type := contribution_type,
    description := description,
    latitude := location_data.latitude, longitude := location_data.longitude,
    location_address := location_data.address,
    contributor_name := pyOr contributor_name "Anonymous",
    file_data := f.data, filename := f.name, file_size := f.data.length }

/-- The INSERTs issued inside the try block of save_contribution
(lines 351-407), in order: category routing is by Python substring test on
the selected contribution type. -/
def pendingRows (contribution_type title description : String)
    (location_data : LocationData) (contributor_name : String)
    (uploaded_files : Option (List UploadedFile)) : List Row :=
  if strContains contribution_type "Temple Information" then
    [Row.temple (templeRowOf title description location_data contributor_name)]
  else if strContains contribution_type "Historical Event" then
    [Row.event (eventRowOf title description location_data contributor_name)]
  else
    match uploaded_files with
    | some fs => fs.map (fun f =>
        Row.content (contentRowOf contribution_type title description
          location_data contributor_name f))
    | none => []

/-- The success_count computed by save_contribution on the no-exception
path: 1 for the temple and event branches, one per file otherwise. -/
def pendingCount (contribution_type : String)
    (uploaded_files : Option (List UploadedFile)) : Nat :=
  if strContains contribution_type "Temple Information" then 1
  else if strContains contribution_type "Historical Event" then 1
  else
    match uploaded_files with
    | some fs => fs.length
    | none => 0

/-- Fault oracle for the SQLite layer: no exception, an exception raised by
the k-th `c.execute` (0-based), or an exception raised by `conn.commit()`. -/
inductive StorageFault where
  | ok
  | failAtInsert (k : Nat)
  | failAtCommit
  deriving DecidableEq, Repr

/-- save_contribution (lines 344-418).  All INSERTs run inside one implicit
sqlite3 transaction; an exception anywhere in the try block sets
success_count to 0 and the connection is closed without a commit, so the
pending rows are rolled back and the committed database is unchanged. -/
def save_contribution (db : DB) (fault : StorageFault)
    (contribution_type title description : String)
    (location_data : LocationData) (contributor_name : String)
    (uploaded_files : Option (List UploadedFile)) : DB × Nat :=
  let rows := pendingRows contribution_type title description location_data
    contributor_name uploaded_files
  match fault with
  | StorageFault.failAtCommit => (db, 0)
  | StorageFault.failAtInsert k =>
    if k < rows.length then (db, 0)
    else (rows.foldl insertRow db, pendingCount contribution_type uploaded_files)
  | StorageFault.ok =>
    (rows.foldl insertRow db, pendingCount contribution_type uploaded_files)

/-- Contributor column of a pending row, whichever table it targets. -/
def rowContributor : Row → String
  | Row.temple r => r.contributor_name
  | Row.event r => r.contributor_name
  | Row.content r => r.contributor_name

/-- Coordinate pairing of a pending row, whichever table it targets. -/
def rowCoordsPaired : Row → Bool
  | Row.temple r => r.latitude.isSome == r.longitude.isSome
  | Row.event r => r.latitude.isSome == r.longitude.isSome
  | Row.content r => r.latitude.isSome == r.longitude.isSome

/-- Condition of lines 318-319: no file attached. -/
def filesMissing : Option (List UploadedFile) → Bool
  | none => true
  | some fs => fs.length == 0

/-- Validation of the submitted form (lines 311-320): all violated rules are
collected into one list, in source order. -/
def validate (contribution_type title description : String)
    (uploaded_files : Option (List UploadedFile)) : List String :=
  (if pyStrip title = "" then ["Title is required"] else [])
  ++ (if pyStrip description = "" then ["Content description is required"]
      else [])
  ++ (if filesMissing uploaded_files
        && !strContains contribution_type "Temple Information"
        && !strContains contribution_type "Historical Event"
      then ["Please upload at least one file"] else [])

/-- The submit branch of upload_content_interface (lines 311-342): on any
validation error the errors are shown and nothing is saved; otherwise
save_contribution runs and its count is the count shown to the user.
Returns (errors shown, committed database, success count). -/
def upload_submit (db : DB) (fault : StorageFault)
    (contribution_type title description : String)
    (location_data : LocationData) (contributor_name : String)
    (uploaded_files : Option (List UploadedFile)) :
    List String × DB × Nat :=
  let errors := validate contribution_type title description uploaded_files
  if errors = [] then
    let r := save_contribution db fault contribution_type title description
      location_data contributor_name uploaded_files
    ([], r.1, r.2)
  else
    (errors, db, 0)

/-- A row of the unioned browsing view of browse_contributions
(lines 427-454). -/
structure ViewRow where
  title : String
  content_type : String
  description : String
  contributor_name : String
  latitude : Option ℚ
  longitude : Option ℚ
  location_address : Option String
  filename : Option String
  deriving DecidableEq, Repr

/-- View shape of a content_contributions row (lines 427-432). -/
def contributionView (r : ContentRow) : ViewRow :=
  { title := r.title, content_type := r.content_type,
    description := r.description, contributor_name := r.contributor_name,
    latitude := r.latitude, longitude := r.longitude,
    location_address := some r.location_address, filename := some r.filename }

/-- View shape of a temples row (lines 434-440): constant category label,
NULL filename. -/
def templeView (r : TempleRow) : ViewRow :=
  { title := r.name, content_type := "Temple Information",
    description := r.description, contributor_name := r.contributor_name,
    latitude := r.latitude, longitude := r.longitude,
    location_address := some r.location_address, filename := none }

/-- View shape of a historical_events row (lines 442-449): constant category
label, NULL address and filename. -/
def eventView (r : EventRow) : ViewRow :=
  { title := r.event_title, content_type := "Historical Event",
    description := r.event_description, contributor_name := r.contributor_name,
    latitude := r.latitude, longitude := r.longitude,
    location_address := none, filename := none }

/-- The pd.concat union of the three per-table views (line 454). -/
def allContributions (db : DB) : List ViewRow :=
  db.content_contributions.map contributionView
    ++ db.temples.map templeView
    ++ db.historical_events.map eventView

/-- The filter pipeline of browse_contributions (lines 479-488): optional
exact category match, optional exact contributor match, and the
"only show contributions with location data" checkbox, which the source
implements as `latitude.notna()` alone. -/
def browseFilter (rows : List ViewRow) (content_filter : Option String)
    (contributor_filter : Option String) (location_filter : Bool) :
    List ViewRow :=
  let f1 := match content_filter with
    | some c => rows.filter (fun r => decide (r.content_type = c))
    | none => rows
  let f2 := match contributor_filter with
    | some c => f1.filter (fun r => decide (r.contributor_name = c))
    | none => f1
  if location_filter then f2.filter (fun r => r.latitude.isSome) else f2

/-- The map_data selection of line 494: rows where both coordinates are
non-null. -/
def browseMapRows (rows : List ViewRow) : List ViewRow :=
  rows.filter (fun r => r.latitude.isSome && r.longitude.isSome)

/-- Whether the caller of get_location_from_ip treats the outcome as a
failed resolution (line 203): the result is None, or its latitude is falsy. -/
def resolverFailed (outcome : IPOutcome) : Bool :=
  match get_location_from_ip outcome with
  | none => true
  | some ipl => !pyTruthy ipl.latitude

/-- Outcomes of the IP lookup that are failures in the sense the source can
detect: a network error or timeout, a response that is not valid JSON, a
non-200 status, or a parsed body whose latitude is missing, null or zero. -/
def ipFailureOutcome : IPOutcome → Bool
  | IPOutcome.netError => true
  | IPOutcome.response _ JsonBody.invalid => true
  | IPOutcome.response s (JsonBody.valid d) =>
      decide (s ≠ 200) || !pyTruthy d.latitude

/-- Two attached files used to instantiate universally quantified theorems. -/
def sampleFiles : List UploadedFile :=
  [{ name := "a.jpg", data := [1, 2, 3] }, { name := "b.jpg", data := [] }]

/-! ## Helper lemmas -/

/-- Committing a run of content INSERTs appends the corresponding rows to
the content_contributions table and leaves the other tables alone. -/
theorem foldl_insertRow_content (g : UploadedFile → ContentRow) :
    ∀ (fs : List UploadedFile) (db : DB),
      (fs.map (fun f => Row.content (g f))).foldl insertRow db
        = { db with content_contributions :=
              db.content_contributions ++ fs.map g } := by
  intro fs
  induction fs with
  | nil => intro db; simp [insertRow]
  | cons f rest ih =>
    intro db
    simp only [List.map_cons, List.foldl_cons]
    rw [ih]
    simp [insertRow, List.append_assoc]

/-- A truthy optional number is present. -/
theorem pyTruthy_isSome {o : Option ℚ} (h : pyTruthy o = true) :
    o.isSome = true := by
  cases o with
  | none => simp [pyTruthy] at h
  | some x => rfl

/-- One location event preserves coordinate pairing, provided the event
itself never supplies a truthy latitude without a longitude. -/
theorem locStep_paired (st : LocationData) (e : LocEvent)
    (hst : coordsPaired st = true) (he : eventPaired e = true) :
    coordsPaired (locStep st e) = true := by
  cases e with
  | gps r =>
    cases r with
    | none => exact hst
    | some reading =>
      cases hb : pyTruthy reading.latitude with
      | false => simpa [locStep, gpsUpdate, hb] using hst
      | true =>
        have hlon : reading.longitude.isSome = true := by
          simpa [eventPaired, hb] using he
        simp [locStep, gpsUpdate, hb, coordsPaired, pyTruthy_isSome hb, hlon]
  | manual lat lon => rfl
  | setAddress a => exact hst
  | reset => rfl
  | ip outcome =>
    cases outcome with
    | netError => exact hst
    | response s body =>
      cases body with
      | invalid =>
        by_cases hs : s = 200
        · subst hs; exact hst
        · simpa [locStep, ipUpdate, get_location_from_ip, hs] using hst
      | valid d =>
        by_cases hs : s = 200
        · subst hs
          cases hb : pyTruthy d.latitude with
          | false =>
            simpa [locStep, ipUpdate, get_location_from_ip, hb] using hst
          | true =>
            have hlon : d.longitude.isSome = true := by
              simpa [eventPaired, hb] using he
            simp [locStep, ipUpdate, get_location_from_ip, hb, coordsPaired,
              pyTruthy_isSome hb, hlon]
        · simpa [locStep, ipUpdate, get_location_from_ip, hs] using hst

/-- Coordinate pairing is an inductive invariant of the location state
machine over paired events. -/
theorem locRun_paired_aux :
    ∀ (evs : List LocEvent) (st : LocationData),
      coordsPaired st = true → (∀ e ∈ evs, eventPaired e = true) →
      coordsPaired (evs.foldl locStep st) = true := by
  intro evs
  induction evs with
  | nil => intro st h _; exact h
  | cons e rest ih =>
    intro st hst hall
    exact ih (locStep st e)
      (locStep_paired st e hst (hall e (List.mem_cons_self e rest)))
      (fun x hx => hall x (List.mem_cons_of_mem e hx))

/-- Any row save_contribution builds from a paired location state carries
paired coordinates, since the row coordinates are copied from the state. -/
theorem pendingRows_paired (ct t d : String) (loc : LocationData) (n : String)
    (files : Option (List UploadedFile)) (hloc : coordsPaired loc = true) :
    ∀ r ∈ pendingRows ct t d loc n files, rowCoordsPaired r = true := by
  intro r hr
  unfold pendingRows at hr
  split at hr
  · simp only [List.mem_singleton] at hr
    subst hr; exact hloc
  · split at hr
    · simp only [List.mem_singleton] at hr
      subst hr; exact hloc
    · cases files with
      | none => simp at hr
      | some fs =>
        obtain ⟨f, hf, rfl⟩ := List.mem_map.mp hr
        exact hloc

/-! ## C1: multi-file content submissions fan out one row per file -/

/-- C1: a ContentContribution submission (a category that is neither Temple
Information nor Historical Event) with N attached files and non-empty title
and description passes validation, persists exactly N rows in
content_contributions — each sharing the same title, description, latitude,
longitude, address and contributor — leaves the other tables unchanged, and
reports the success count N, which is the count the interface shows. -/
theorem multiFileFanOut (db : DB) (ct t d : String) (loc : LocationData)
    (n : String) (fs : List UploadedFile)
    (h1 : strContains ct "Temple Information" = false)
    (h2 : strContains ct "Historical Event" = false)
    (h3 : pyStrip t ≠ "") (h4 : pyStrip d ≠ "") (h5 : fs ≠ []) :
    upload_submit db StorageFault.ok ct t d loc n (some fs)
      = ([], { db with content_contributions :=
            db.content_contributions ++ fs.map (contentRowOf ct t d loc n) },
          fs.length)
    ∧ ∀ r ∈ fs.map (contentRowOf ct t d loc n),
        r.title = t ∧ r.description = d ∧ r.latitude = loc.latitude
        ∧ r.longitude = loc.longitude ∧ r.location_address = loc.address
        ∧ r.contributor_name = pyOr n "Anonymous" := by
  have hfm : filesMissing (some fs) = false := by
    simp [filesMissing, List.length_eq_zero, h5]
  have hv : validate ct t d (some fs) = [] := by
    simp [validate, h3, h4, hfm]
  have hs : save_contribution db StorageFault.ok ct t d loc n (some fs)
      = ({ db with content_contributions :=
            db.content_contributions ++ fs.map (contentRowOf ct t d loc n) },
          fs.length) := by
    simp only [save_contribution, pendingRows, pendingCount, h1, h2,
      Bool.false_eq_true, if_false]
    rw [foldl_insertRow_content]
  constructor
  · simp [upload_submit, hv, hs]
  · intro r hr
    obtain ⟨f, hf, rfl⟩ := List.mem_map.mp hr
    exact ⟨rfl, rfl, rfl, rfl, rfl, rfl⟩

/-- Witness for multiFileFanOut at a concrete two-file photo submission. -/
theorem multiFileFanOut_witness :
    upload_submit emptyDB StorageFault.ok "📸 Upload Photos/Images"
        "Temple gate" "Photo of the gate" initLocation "Asha"
        (some sampleFiles)
      = ([], { emptyDB with content_contributions := emptyDB.content_contributions ++ sampleFiles.map (contentRowOf "📸 Upload Photos/Images" "Temple gate" "Photo of the gate" initLocation "Asha") },
          sampleFiles.length) :=
  (multiFileFanOut emptyDB "📸 Upload Photos/Images" "Temple gate"
    "Photo of the gate" initLocation "Asha" sampleFiles (by decide) (by decide)
    (by decide) (by decide) (by decide)).1

/-! ## C2: latitude and longitude are set together or not at all -/

/-- C2 counterexample: the claim that no reachable location state has
exactly one coordinate set is false.  An IP lookup that returns HTTP 200
with a JSON body carrying a latitude but no longitude (lines 196-213 only
test the latitude before copying both fields) drives the resolver state to
latitude set, longitude absent. -/
theorem halfFixReachable :
    (locRun [LocEvent.ip (IPOutcome.response 200 (JsonBody.valid
        { latitude := some 7, longitude := none, city := some "Chennai",
          region := some "TN", country_name := some "India" }))]).latitude
      = some 7
    ∧ (locRun [LocEvent.ip (IPOutcome.response 200 (JsonBody.valid
        { latitude := some 7, longitude := none, city := some "Chennai",
          region := some "TN", country_name := some "India" }))]).longitude
      = none := by decide

/-- C2 as amended: provided every GPS reading and every parsed IP body that
supplies a truthy latitude also supplies a longitude (which the real device
capability and a well-formed geolocation response always do), every
reachable location state has latitude and longitude both set or both
absent, and so does every row save_contribution builds from such a state. -/
theorem locationPairingInvariant (evs : List LocEvent)
    (h : ∀ e ∈ evs, eventPaired e = true) :
    coordsPaired (locRun evs) = true
    ∧ ∀ (ct t d n : String) (files : Option (List UploadedFile)),
        ∀ r ∈ pendingRows ct t d (locRun evs) n files,
          rowCoordsPaired r = true := by
  have hrun : coordsPaired (locRun evs) = true :=
    locRun_paired_aux evs initLocation rfl h
  exact ⟨hrun, fun ct t d n files => pendingRows_paired ct t d _ n files hrun⟩

/-- Witness for locationPairingInvariant on a one-event manual-entry run. -/
theorem locationPairingInvariant_witness :
    coordsPaired (locRun [LocEvent.manual 1 2]) = true :=
  (locationPairingInvariant [LocEvent.manual 1 2] (by decide)).1

/-! ## C3: all validation errors are collected and nothing is written -/

/-- C3: a submission whose title and description are empty after stripping,
in a file-requiring category with no attached file, produces exactly the
three validation error messages as one list, and the submit handler leaves
the database unchanged with a count of 0. -/
theorem validationCollectsAllErrors (db : DB) (fault : StorageFault)
    (ct t d : String) (loc : LocationData) (n : String)
    (files : Option (List UploadedFile))
    (h1 : pyStrip t = "") (h2 : pyStrip d = "")
    (h3 : strContains ct "Temple Information" = false)
    (h4 : strContains ct "Historical Event" = false)
    (h5 : files = none ∨ files = some []) :
    validate ct t d files
      = ["Title is required", "Content description is required",
         "Please upload at least one file"]
    ∧ (validate ct t d files).length = 3
    ∧ upload_submit db fault ct t d loc n files
      = (["Title is required", "Content description is required",
          "Please upload at least one file"], db, 0) := by
  have hfm : filesMissing files = true := by
    rcases h5 with h | h <;> subst h <;> rfl
  have hv : validate ct t d files
      = ["Title is required", "Content description is required",
         "Please upload at least one file"] := by
    simp [validate, h1, h2, h3, h4, hfm]
  refine ⟨hv, by rw [hv]; rfl, ?_⟩
  simp [upload_submit, hv]

/-- Witness for validationCollectsAllErrors at a concrete empty photo
submission. -/
theorem validationCollectsAllErrors_witness :
    upload_submit emptyDB StorageFault.ok "📸 Upload Photos/Images" "" "   "
        initLocation "" none
      = (["Title is required", "Content description is required",
          "Please upload at least one file"], emptyDB, 0) :=
  (validationCollectsAllErrors emptyDB StorageFault.ok "📸 Upload Photos/Images"
    "" "   " initLocation "" none (by decide) (by decide) (by decide)
    (by decide) (Or.inl rfl)).2.2

/-! ## C4: a storage failure commits nothing and reports 0 -/

/-- C4: if an exception is raised by any INSERT actually executed for the
submission, or by the final commit, the committed database is unchanged
(the implicit transaction is rolled back when the connection closes) and
save_contribution reports a count of 0. -/
theorem storageFailureAtomic (db : DB) (fault : StorageFault)
    (ct t d : String) (loc : LocationData) (n : String)
    (files : Option (List UploadedFile))
    (h : fault = StorageFault.failAtCommit
       ∨ ∃ k, fault = StorageFault.failAtInsert k
           ∧ k < (pendingRows ct t d loc n files).length) :
    save_contribution db fault ct t d loc n files = (db, 0) := by
  rcases h with h | ⟨k, hk, hlt⟩
  · subst h; rfl
  · subst hk
    simp [save_contribution, hlt]

/-- Witness for storageFailureAtomic: a commit failure on a two-file upload
leaves the empty database empty and returns 0. -/
theorem storageFailureAtomic_witness :
    save_contribution emptyDB StorageFault.failAtCommit
        "📸 Upload Photos/Images" "t" "d" initLocation "" (some sampleFiles)
      = (emptyDB, 0) :=
  storageFailureAtomic emptyDB StorageFault.failAtCommit
    "📸 Upload Photos/Images" "t" "d" initLocation "" (some sampleFiles)
    (Or.inl rfl)

/-! ## C5: contributor-name normalization -/

/-- C5 counterexample: the claim that a whitespace-only contributor name is
persisted as "Anonymous" is false.  The source uses Python truthiness
(`contributor_name or 'Anonymous'`, lines 364, 379, 402), and a
single-space name is truthy, so it is persisted verbatim. -/
theorem whitespaceContributorKept :
    pyStrip " " = ""
    ∧ (save_contribution emptyDB StorageFault.ok
        "🏛️ Add New Temple Information" "Temple A" "desc" initLocation " "
        none).1.temples
      = [{ name := "Temple A", location_address := "", latitude := none,
           longitude := none, description := "desc",
           contributor_name := " " }]
    ∧ (" " : String) ≠ "Anonymous" := by decide

/-- C5 as amended: for every entity type, a contributor name that is the
empty string is persisted as the literal "Anonymous", and any non-empty
name — including a whitespace-only one — is persisted unchanged.  The
normalization happens in the row save_contribution builds, i.e. at the
point of persistence. -/
theorem contributorNormalization (ct t d : String) (loc : LocationData)
    (n : String) (files : Option (List UploadedFile)) :
    ∀ r ∈ pendingRows ct t d loc n files,
      rowContributor r = if n = "" then "Anonymous" else n := by
  intro r hr
  unfold pendingRows at hr
  split at hr
  · simp only [List.mem_singleton] at hr
    subst hr; rfl
  · split at hr
    · simp only [List.mem_singleton] at hr
      subst hr; rfl
    · cases files with
      | none => simp at hr
      | some fs =>
        obtain ⟨f, hf, rfl⟩ := List.mem_map.mp hr
        rfl

/-- The temples row that a blank-contributor temple submission produces. -/
def anonTempleRow : TempleRow :=
  { name := "t", location_address := "", latitude := none, longitude := none,
    description := "d", contributor_name := "Anonymous" }

/-- Witness for contributorNormalization: the temple row built from a blank
contributor carries the name "Anonymous". -/
theorem contributorNormalization_witness :
    rowContributor (Row.temple anonTempleRow)
      = if "" = "" then "Anonymous" else "" :=
  contributorNormalization "🏛️ Add New Temple Information" "t" "d"
    initLocation "" none (Row.temple anonTempleRow) (by decide)

/-! ## C6: failed IP lookups populate nothing -/

/-- C6 counterexample: the claim that every malformed response body yields a
failure value and leaves the coordinates unpopulated is false.  A 200
response whose parsed body has a latitude but no longitude (malformed under
the declared contract, which requires both) makes get_location_from_ip
return a non-failure dict, and the component then populates the latitude
and sets the IP method tag. -/
theorem malformedIPBodyAccepted :
    get_location_from_ip (IPOutcome.response 200 (JsonBody.valid
        { latitude := some 12, longitude := none, city := none,
          region := none, country_name := none })) ≠ none
    ∧ (ipUpdate initLocation (IPOutcome.response 200 (JsonBody.valid
        { latitude := some 12, longitude := none, city := none,
          region := none, country_name := none }))).latitude = some 12
    ∧ (ipUpdate initLocation (IPOutcome.response 200 (JsonBody.valid
        { latitude := some 12, longitude := none, city := none,
          region := none, country_name := none }))).method
      = some Method.IP := by decide

/-- C6 as amended: for every IP-lookup outcome that is a network error or
timeout, a non-200 status, a body that is not valid JSON, or a parsed body
whose latitude is missing, null or zero, the attempt is treated as a failed
resolution (never a propagated exception): the location state is completely
unchanged — so no coordinates and no IP method tag result from the
attempt. -/
theorem ipFailureLeavesStateUnchanged (st : LocationData) (outcome : IPOutcome)
    (h : ipFailureOutcome outcome = true) :
    ipUpdate st outcome = st ∧ resolverFailed outcome = true := by
  cases outcome with
  | netError => exact ⟨rfl, rfl⟩
  | response s body =>
    cases body with
    | invalid =>
      by_cases hs : s = 200
      · subst hs; exact ⟨rfl, rfl⟩
      · exact ⟨by simp [ipUpdate, get_location_from_ip, hs],
          by simp [resolverFailed, get_location_from_ip, hs]⟩
    | valid d =>
      by_cases hs : s = 200
      · subst hs
        have hb : pyTruthy d.latitude = false := by
          simpa [ipFailureOutcome] using h
        exact ⟨by simp [ipUpdate, get_location_from_ip, hb],
          by simp [resolverFailed, get_location_from_ip, hb]⟩
      · exact ⟨by simp [ipUpdate, get_location_from_ip, hs],
          by simp [resolverFailed, get_location_from_ip, hs]⟩

/-- Witness for ipFailureLeavesStateUnchanged at a concrete HTTP 500
response with an unparseable body. -/
theorem ipFailureLeavesStateUnchanged_witness :
    ipUpdate initLocation (IPOutcome.response 500 JsonBody.invalid)
      = initLocation
    ∧ resolverFailed (IPOutcome.response 500 JsonBody.invalid) = true :=
  ipFailureLeavesStateUnchanged initLocation
    (IPOutcome.response 500 JsonBody.invalid) (by decide)

/-! ## C7: the "has location data" browse filter -/

/-- C7 counterexample: the claim that the filter keeps exactly the rows with
both coordinates non-null is false.  The source (line 488) only tests
`latitude.notna()`, so a persisted row with a latitude and a NULL longitude
survives the filter. -/
theorem locationFilterKeepsNullLongitude :
    browseFilter (allContributions (save_contribution emptyDB StorageFault.ok
        "🏛️ Add New Temple Information" "T" "D"
        { latitude := some 10, longitude := none, address := "",
          method := some Method.IP } "N" none).1) none none true
      = [{ title := "T", content_type := "Temple Information",
           description := "D", contributor_name := "N", latitude := some 10,
           longitude := none, location_address := some "", filename := none }]
    ∧ ({ title := "T", content_type := "Temple Information",
         description := "D", contributor_name := "N", latitude := some 10,
         longitude := none, location_address := some "",
         filename := none } : ViewRow).longitude = none := by decide

/-- C7 as amended: with the other filters at "All", enabling the "has
location data" checkbox restricts the unioned view to exactly those rows
whose latitude is non-null; the longitude is not consulted. -/
theorem locationFilterLatitudeOnly (rows : List ViewRow) (r : ViewRow) :
    r ∈ browseFilter rows none none true
      ↔ r ∈ rows ∧ r.latitude.isSome = true := by
  simp [browseFilter, List.mem_filter]

/-! ## C8: a (0,0) fix is stored but hidden from the preview map -/

/-- C8: a fix with latitude and longitude both exactly 0 is accepted by the
manual-entry path of the resolver (stored with both coordinates set and the
Manual tag, not converted to absent), the display-layer preview map
excludes it — the line-222 check "is either coordinate non-zero" is false
for it — while persistence keeps both coordinates as real zeros and the
persistence-side read queries (the browse location filter and the
both-coordinates-non-null map selection) retain the row, applying no
non-zero check. -/
theorem zeroZeroFixStoredNotPreviewed (db : DB) (t d n : String) :
    (manualUpdate initLocation 0 0).latitude = some 0
    ∧ (manualUpdate initLocation 0 0).longitude = some 0
    ∧ (manualUpdate initLocation 0 0).method = some Method.Manual
    ∧ previewNonZeroCheck (manualUpdate initLocation 0 0) = false
    ∧ mapPreviewShown (manualUpdate initLocation 0 0) = false
    ∧ (save_contribution db StorageFault.ok "🏛️ Add New Temple Information"
        t d (manualUpdate initLocation 0 0) n none).1.temples
      = db.temples ++ [templeRowOf t d (manualUpdate initLocation 0 0) n]
    ∧ (templeRowOf t d (manualUpdate initLocation 0 0) n).latitude = some 0
    ∧ (templeRowOf t d (manualUpdate initLocation 0 0) n).longitude = some 0
    ∧ templeView (templeRowOf t d (manualUpdate initLocation 0 0) n)
        ∈ browseFilter (allContributions (save_contribution db StorageFault.ok
            "🏛️ Add New Temple Information" t d (manualUpdate initLocation 0 0)
            n none).1) none none true
    ∧ templeView (templeRowOf t d (manualUpdate initLocation 0 0) n)
        ∈ browseMapRows (allContributions (save_contribution db StorageFault.ok
            "🏛️ Add New Temple Information" t d (manualUpdate initLocation 0 0)
            n none).1) := by
  have hct : strContains "🏛️ Add New Temple Information" "Temple Information"
      = true := by decide
  have hdb : (save_contribution db StorageFault.ok
      "🏛️ Add New Temple Information" t d (manualUpdate initLocation 0 0) n
      none).1
      = { db with temples :=
            db.temples ++ [templeRowOf t d (manualUpdate initLocation 0 0) n] } := by
    simp [save_contribution, pendingRows, pendingCount, hct, insertRow]
  have hmem : templeView (templeRowOf t d (manualUpdate initLocation 0 0) n)
      ∈ allContributions (save_contribution db StorageFault.ok
          "🏛️ Add New Temple Information" t d (manualUpdate initLocation 0 0)
          n none).1 := by
    rw [hdb]
    unfold allContributions
    exact List.mem_append_left _ (List.mem_append_right _
      (List.mem_map_of_mem _ (List.mem_append_right _
        (List.mem_singleton_self _))))
  refine ⟨rfl, rfl, rfl, by decide, by decide, by rw [hdb], rfl, rfl, ?_, ?_⟩
  · exact List.mem_filter.mpr ⟨hmem, rfl⟩
  · exact List.mem_filter.mpr ⟨hmem, rfl⟩

/-! ## C9: the historical-event example scenario -/

/-- The manually set location (13.0827, 80.2707) of the C9 scenario. -/
def bellRitualLoc : LocationData :=
  { latitude := some 13.0827, longitude := some 80.2707, address := "",
    method := some Method.Manual }

/-- The single historical_events row the C9 scenario must produce; the
EventRow shape, like the INSERT of lines 370-380 and the schema of lines
89-102, has no address field. -/
def bellRitualRow : EventRow :=
  { event_title := "Temple Bell Ritual", event_description := "Annual ritual",
    latitude := some 13.0827, longitude := some 80.2707,
    contributor_name := "Anonymous" }

/-- C9: submitting category "Historical Event/Story" with title "Temple
Bell Ritual", description "Annual ritual", coordinates (13.0827, 80.2707)
and a blank contributor yields exactly one historical_events row with
contributor_name "Anonymous" and those coordinates, and nothing else; the
historical_events INSERT and schema carry no address column at all (the
EventRow shape has no address field). -/
theorem historicalEventScenario :
    save_contribution emptyDB StorageFault.ok "📚 Share Historical Event/Story"
        "Temple Bell Ritual" "Annual ritual" bellRitualLoc "" none
      = ({ temples := [], historical_events := [bellRitualRow],
           content_contributions := [] }, 1) := rfl

/-! ## C10: temple and event submissions ignore attached files -/

/-- C10: for a submission in the Temple Information or Historical Event
category, save_contribution is independent of the uploaded files (no file
byte, filename or size reaches any table), writes exactly one row to the
corresponding table while leaving the other tables unchanged, and returns
a success count of exactly 1. -/
theorem fileFreeBranchIgnoresFiles (db : DB) (ct t d : String)
    (loc : LocationData) (n : String) (files : Option (List UploadedFile))
    (h : strContains ct "Temple Information" = true
       ∨ strContains ct "Historical Event" = true) :
    save_contribution db StorageFault.ok ct t d loc n files
      = save_contribution db StorageFault.ok ct t d loc n none
    ∧ (save_contribution db StorageFault.ok ct t d loc n files).2 = 1
    ∧ (save_contribution db StorageFault.ok ct t d loc n
        files).1.content_contributions = db.content_contributions
    ∧ (if strContains ct "Temple Information" = true then
        (save_contribution db StorageFault.ok ct t d loc n files).1.temples
          = db.temples ++ [templeRowOf t d loc n]
        ∧ (save_contribution db StorageFault.ok ct t d loc n
            files).1.historical_events = db.historical_events
      else
        (save_contribution db StorageFault.ok ct t d loc n files).1.temples
          = db.temples
        ∧ (save_contribution db StorageFault.ok ct t d loc n
            files).1.historical_events
          = db.historical_events ++ [eventRowOf t d loc n]) := by
  cases hT : strContains ct "Temple Information" with
  | true =>
    simp [save_contribution, pendingRows, pendingCount, insertRow, hT]
  | false =>
    have hE : strContains ct "Historical Event" = true := by
      rcases h with h1 | h1
      · rw [hT] at h1; simp at h1
      · exact h1
    simp [save_contribution, pendingRows, pendingCount, insertRow, hT, hE]

/-- Witness for fileFreeBranchIgnoresFiles: a temple submission with two
attached files still reports a count of 1. -/
theorem fileFreeBranchIgnoresFiles_witness :
    (save_contribution emptyDB StorageFault.ok
        "🏛️ Add New Temple Information" "Shiva Temple" "Old temple"
        initLocation "" (some sampleFiles)).2 = 1 :=
  (fileFreeBranchIgnoresFiles emptyDB "🏛️ Add New Temple Information"
    "Shiva Temple" "Old temple" initLocation "" (some sampleFiles)
    (Or.inl (by decide))).2.1
